import Mathlib

/-!
Verification of the NoPressure wound-care analytics core against its
specification.  The Python services `analytics.py`, `alert_engine.py` and
`treatment_engine.py` are shallowly embedded: Python floats become exact
rationals (`ℚ`), `datetime` instants become integer Unix seconds (`ℤ`),
`timedelta.days` becomes floor division by 86400, dictionaries with
optional keys become structures with `Option` fields, and raised
`ValueError`s become `Except.error` with the source's message string.
`datetime.utcnow()` is modelled by an explicit `now : ℤ` parameter:
every call the source makes to the wall clock reads this parameter.
-/

namespace NoPressure

/-- Round-half-to-even on an exact rational, the rounding used by Python's
`round` builtin and `format` for floats (idealised to exact decimal
arithmetic). -/
def roundHalfEven (q : ℚ) : ℤ :=
  if q - ⌊q⌋ < 1/2 then ⌊q⌋
  else if q - ⌊q⌋ > 1/2 then ⌊q⌋ + 1
  else if ⌊q⌋ % 2 = 0 then ⌊q⌋ else ⌊q⌋ + 1

/-- Python `round(q, n)` modelled on exact rationals. -/
def pyRound (n : ℕ) (q : ℚ) : ℚ :=
  (roundHalfEven (q * 10 ^ n) : ℚ) / 10 ^ n

/-- Python `(later - earlier).days`: `timedelta.days` is the floor of the
signed difference in whole 86400-second days. -/
def daysBetween (earlier later : ℤ) : ℤ := (later - earlier).fdiv 86400

/-! ## Analytics service (`app/services/analytics.py`) -/

/-- One entry of the `scan_history: List[Dict]` consumed by
`AnalyticsService`.  `none` models an absent dictionary key. -/
structure Measurement where
  area_cm2 : Option ℚ
  created_at : Option ℤ
deriving Repr, DecidableEq, Inhabited

/-- Embeds `s.get("area_cm2", 0)`. -/
def mArea (m : Measurement) : ℚ := m.area_cm2.getD 0

/-- Embeds `s.get("created_at", datetime.utcnow())`. -/
def mTime (now : ℤ) (m : Measurement) : ℤ := m.created_at.getD now

/-- Result record of `calculate_healing_trend`. -/
structure HealingTrend where
  wound_id : String
  baseline_area_cm2 : ℚ
  current_area_cm2 : ℚ
  par_percentage : ℚ
  days_elapsed : ℤ
  is_stalled : Bool
  trend_direction : String
  projected_healing_days : Option ℤ
deriving Repr, DecidableEq

/-- Embeds `AnalyticsService._calculate_par`. -/
def calculatePar (baseline_area current_area : ℚ) : ℚ :=
  if baseline_area ≤ 0 then 0
  else pyRound 1 (((baseline_area - current_area) / baseline_area) * 100)

/-- Embeds `AnalyticsService._get_trend_direction`: looks at the areas of the last
up-to-3 scans (`scan_history[-3:]`, missing areas default to `0`). -/
def getTrendDirection (h : List Measurement) : String :=
  if h.length < 2 then "stable"
  else
    let recent_areas := (h.drop (h.length - 3)).map mArea
    if recent_areas.length < 2 then "stable"
    else if recent_areas.getLastD 0 < recent_areas.headD 0 * (95/100) then "improving"
    else if recent_areas.getLastD 0 > recent_areas.headD 0 * (105/100) then "deteriorating"
    else "stable"

/-- Embeds `AnalyticsService._project_healing_days`: linear projection from the last
two scans.  The source's `isinstance(d, datetime)` guard is always satisfied
in this model because a missing `created_at` defaults to `utcnow()`, which is
itself a `datetime`.  Python's `int()` truncation agrees with `⌊·⌋` here
because both operands of the final division are positive. -/
def projectHealingDays (now : ℤ) (h : List Measurement) (current_area : ℚ) : Option ℤ :=
  if h.length < 2 ∨ current_area ≤ 0 then none
  else
    let lastTwo := h.drop (h.length - 2)
    let areas := lastTwo.map mArea
    let dates := lastTwo.map (mTime now)
    let days := daysBetween (dates.headD 0) (dates.getLastD 0)
    if days ≤ 0 then none
    else
      let rate := (areas.headD 0 - areas.getLastD 0) / (days : ℚ)
      if rate ≤ 0 then none
      else some ⌊current_area / rate⌋

/-- Embeds `AnalyticsService.calculate_healing_trend` (the spec's `compute_trend`).
Raises `ValueError("No scan history available")` on an empty history;
`now` stands for `datetime.utcnow()`, substituted for missing timestamps. -/
def calculateHealingTrend (wound_id : String) (scan_history : List Measurement) (now : ℤ) :
    Except String HealingTrend :=
  match scan_history with
  | [] => Except.error "No scan history available"
  | m :: rest =>
    let h := m :: rest
    let baseline_area := mArea (h.headD m)
    let current_area := mArea (h.getLastD m)
    let baseline_date := mTime now (h.headD m)
    let current_date := mTime now (h.getLastD m)
    let days_elapsed := daysBetween baseline_date current_date
    let par := calculatePar baseline_area current_area
    Except.ok {
      wound_id := wound_id
      baseline_area_cm2 := baseline_area
      current_area_cm2 := current_area
      par_percentage := par
      days_elapsed := days_elapsed
      is_stalled := decide (28 ≤ days_elapsed ∧ par < 20)
      trend_direction := getTrendDirection h
      projected_healing_days := projectHealingDays now h current_area }

/-- Result record of `predict_deterioration`. -/
structure DeteriorationPrediction where
  wound_id : String
  risk_probability : ℚ
  confidence_interval_pct : ℚ
  prediction_horizon_hours : ℤ := 72
  rationale : String := "Trend-based risk estimate over 5-day window"
deriving Repr, DecidableEq

/-- Python's stable ascending sort `sorted(scan_history, key=lambda s:
s.get("created_at", datetime.utcnow()))`. -/
def sortScans (now : ℤ) (h : List Measurement) : List Measurement :=
  List.insertionSort (fun a b => mTime now a ≤ mTime now b) h

/-- Embeds `AnalyticsService.predict_deterioration`.  The source's
`isinstance(..., datetime)` check never fires in this model (missing keys
default to `utcnow()`); the direct subscript `recent_scans[i]["created_at"]`
raises `KeyError` when the key is absent, modelled by the final match. -/
def predictDeterioration (wound_id : String) (scan_history : List Measurement) (now : ℤ) :
    Except String DeteriorationPrediction :=
  if scan_history.length < 5 then
    Except.error "At least 5 daily scans are required for prediction"
  else
    let sorted_scans := sortScans now scan_history
    let start_date := mTime now (sorted_scans.headD default)
    let end_date := mTime now (sorted_scans.getLastD default)
    if daysBetween start_date end_date < 4 then
      Except.error "Scans must cover at least five consecutive days"
    else
      let recent_scans := sorted_scans.drop (sorted_scans.length - 5)
      match calculateHealingTrend wound_id recent_scans now with
      | Except.error e => Except.error e
      | Except.ok trend =>
        match (recent_scans.getLastD default).created_at,
              (recent_scans.headD default).created_at with
        | some tLast, some tFirst =>
          let areas := recent_scans.map mArea
          let days_span := max (daysBetween tFirst tLast) 1
          let slope := (areas.getLastD 0 - areas.headD 0) / (days_span : ℚ)
          let f1 : ℚ := if trend.trend_direction = "deteriorating" then 1/4 else 0
          let f2 : ℚ := if trend.par_percentage < 0 then 1/5 else 0
          let f3 : ℚ := if slope > 0 then min (3/10) (slope / 10) else 0
          let risk_probability := max 0 (min 1 (1/10 + (f1 + f2 + f3)))
          Except.ok {
            wound_id := wound_id
            risk_probability := pyRound 2 risk_probability
            confidence_interval_pct :=
              pyRound 1 (max 5 (30 - (recent_scans.length : ℚ) * 2)) }
        | _, _ => Except.error "KeyError: created_at"

/-! ## Treatment engine (`app/services/treatment_engine.py`) -/

/-- Result record of `TreatmentEngine.recommend`. -/
structure TreatmentRecommendation where
  primary_dressing : String
  secondary_dressing : Option String
  interventions : List String
  rationale : String
  urgency : String
  referral_needed : Bool
  referral_reason : Option String
deriving Repr, DecidableEq

/-- Python's `.0f` float formatting: half-even rounding to an integer,
printed. -/
def fmt0 (q : ℚ) : String := toString (roundHalfEven q)

/-- Embeds `TreatmentEngine._build_rationale`. -/
def buildRationale (granulation_pct slough_pct eschar_pct : ℚ) (exudate_level : String) :
    String :=
  let parts :=
    (if eschar_pct > 0 then [fmt0 eschar_pct ++ "% necrotic tissue present"] else []) ++
    (if slough_pct > 0 then [fmt0 slough_pct ++ "% slough requiring debridement"] else []) ++
    (if granulation_pct > 0 then [fmt0 granulation_pct ++ "% healthy granulation tissue"] else []) ++
    [exudate_level ++ " exudate level"]
  String.intercalate "; " parts ++ "."

/-- Embeds `TreatmentEngine.recommend` (the spec's `recommend_treatment`).  The
source builds one `interventions` list and mutates `urgency` in place; here
each append site contributes its own sublist, concatenated in the source's
append order, and the urgency updates are chained explicitly. -/
def recommend (granulation_pct slough_pct eschar_pct : ℚ)
    (exudate_level etiology : String) (is_stalled : Bool)
    (sub_epidermal_risk : String) : TreatmentRecommendation :=
  let primary_dressing :=
    if eschar_pct > 30 then "Hydrocolloid or Enzymatic Debridement Agent"
    else if slough_pct > 50 then
      (if exudate_level = "high" ∨ exudate_level = "moderate" then "Alginate Dressing"
       else "Hydrogel Dressing")
    else if granulation_pct > 70 ∧ exudate_level = "low" then
      "Non-adherent Silicone Foam Dressing"
    else if granulation_pct > 70 ∧ (exudate_level = "moderate" ∨ exudate_level = "high") then
      "Foam Dressing with Superabsorbent Layer"
    else "Foam Dressing"
  let tissue_interventions : List String :=
    if eschar_pct > 30 then
      ["Mechanical or autolytic debridement required",
       "Vascular assessment recommended before sharp debridement"]
    else if slough_pct > 50 then
      (if exudate_level = "high" ∨ exudate_level = "moderate" then
        ["Debridement of fibrinous tissue required"]
       else ["Autolytic debridement - maintain moist wound environment"])
    else if granulation_pct > 70 ∧ exudate_level = "low" then
      ["Protect granulation tissue - avoid trauma on removal"]
    else if granulation_pct > 70 ∧ (exudate_level = "moderate" ∨ exudate_level = "high") then
      ["High exudate detected; recommend Alginate dressing"]
    else []
  let etiology_interventions : List String :=
    if etiology = "diabetic_foot_ulcer" then
      ["Offloading: Total Contact Cast or therapeutic footwear",
       "Blood glucose optimisation: target HbA1c <7%"]
    else if etiology = "venous_leg_ulcer" then
      ["Compression therapy: 40mmHg four-layer bandaging",
       "Leg elevation when resting"]
    else if etiology = "pressure_ulcer" then
      ["Reposition every 2 hours", "Pressure-redistributing mattress",
       "Nutritional assessment (protein, vitamin C, zinc)"]
    else []
  let stalled_interventions : List String :=
    if is_stalled then
      ["Wound not progressing - consider biopsy to rule out malignancy",
       "Review treatment plan and consider advanced therapy (NPWT or biologics)"]
    else []
  let sub_epi_interventions : List String :=
    if sub_epidermal_risk = "moderate" ∨ sub_epidermal_risk = "high" then
      ["Stage 1 pressure injury detected - initiate prevention protocol immediately"]
    else []
  let urgency0 := if eschar_pct > 30 then "urgent" else "routine"
  let urgency1 := if is_stalled then "urgent" else urgency0
  let urgency :=
    if sub_epidermal_risk = "moderate" ∨ sub_epidermal_risk = "high" then "urgent"
    else urgency1
  { primary_dressing := primary_dressing
    secondary_dressing := none
    interventions := tissue_interventions ++ etiology_interventions ++
      stalled_interventions ++ sub_epi_interventions
    rationale := buildRationale granulation_pct slough_pct eschar_pct exudate_level
    urgency := urgency
    referral_needed := etiology == "diabetic_foot_ulcer"
    referral_reason :=
      if etiology = "diabetic_foot_ulcer" then
        some "Diabetic foot multidisciplinary team referral"
      else none }

/-! ## Alert engine (`app/services/alert_engine.py`) -/

/-- One row of the `scans` table as used by the alert engine:
`created_at` is the non-null ORM timestamp column (Unix seconds);
`severity_score` and `area_cm2` are nullable columns. -/
structure Scan where
  created_at : ℤ
  severity_score : Option ℚ
  area_cm2 : Option ℚ
deriving Repr, DecidableEq, Inhabited

/-- Modelled from the spec: `models/alert.py` is not part of the provided
sources (only its importer `alert_engine.py` is); the spec's data model lists
the alert types severity_spike, stalled_wound and predicted_severe_stage,
the last named `STAGE_4_PREDICTED` by the caller. -/
inductive AlertType
  | severity_spike
  | stalled_wound
  | stage_4_predicted
deriving Repr, DecidableEq

/-- Modelled from the spec: alert severities used by `evaluate_alerts`. -/
inductive AlertSeverity
  | medium
  | high
  | critical
deriving Repr, DecidableEq

/-- Modelled from the spec: the `Alert` record, reduced to the fields the
rules decide (`alert_type`, `severity`); id, wound/patient foreign keys and
the formatted message are persistence/presentation data. -/
structure Alert where
  alert_type : AlertType
  severity : AlertSeverity
deriving Repr, DecidableEq

/-- Python truthiness of an optional float column: `None` and `0.0` are
falsy. -/
def pyTruthy (o : Option ℚ) : Bool :=
  match o with
  | none => false
  | some x => x ≠ 0

/-- The scans carrying a severity score, in history order (the source's
`recent_scored` and `scored` list comprehensions filter on
`severity_score is not None`). -/
def scansScored (scans : List Scan) : List Scan :=
  scans.filter (fun s => s.severity_score.isSome)

/-- Embeds `_project_severity`: degree-1 least-squares fit (`np.polyfit(x, y, 1)`)
of severity score against `created_at.timestamp()` over the scored scans,
evaluated 86400·`days_ahead` seconds after the last scored timestamp.
The rank-deficient system (all scored timestamps equal) is modelled as a
fit failure (`none`), matching the source's treatment of a failed fit. -/
def projectSeverity (scans : List Scan) (days_ahead : ℤ) : Option ℚ :=
  let scored := (scansScored scans).map
    (fun s => ((s.created_at : ℚ), s.severity_score.getD 0))
  if scored.length < 2 then none
  else
    let n : ℚ := scored.length
    let sx := (scored.map (fun p => p.1)).sum
    let sy := (scored.map (fun p => p.2)).sum
    let sxx := (scored.map (fun p => p.1 * p.1)).sum
    let sxy := (scored.map (fun p => p.1 * p.2)).sum
    let den := n * sxx - sx * sx
    if den = 0 then none
    else
      let slope := (n * sxy - sx * sy) / den
      let intercept := (sy - slope * sx) / n
      let future_t := (scored.getLastD (0, 0)).1 + (days_ahead : ℚ) * 86400
      some (slope * future_t + intercept)

/-- Rule 1 of `evaluate_alerts`: severity spike (> 0.5 increase within
24 h). -/
def severitySpikeAlert (scans : List Scan) : Option Alert :=
  let recent_scored := scansScored scans
  if 2 ≤ recent_scored.length then
    let last := recent_scored.getLastD default
    let prev_24h := recent_scored.dropLast.filter
      (fun s => last.created_at - s.created_at ≤ 86400)
    match prev_24h.getLast? with
    | none => none
    | some p =>
      if last.severity_score.getD 0 - p.severity_score.getD 0 > 1/2 then
        some ⟨AlertType.severity_spike, AlertSeverity.high⟩
      else none
  else none

/-- Rule 2 of `evaluate_alerts`: stalled wound (PAR < 20 % after ≥ 28 days).
The source guards with Python truthiness, so a recorded area of exactly `0`
also skips the rule. -/
def stalledWoundAlert (scans : List Scan) : Option Alert :=
  if pyTruthy (scans.headD default).area_cm2 ∧ pyTruthy (scans.getLastD default).area_cm2 then
    let baseline_area := (scans.headD default).area_cm2.getD 0
    let current_area := (scans.getLastD default).area_cm2.getD 0
    let days_elapsed :=
      daysBetween (scans.headD default).created_at (scans.getLastD default).created_at
    if baseline_area > 0 then
      let par := ((baseline_area - current_area) / baseline_area) * 100
      if 28 ≤ days_elapsed ∧ par < 20 then
        some ⟨AlertType.stalled_wound, AlertSeverity.medium⟩
      else none
    else none
  else none

/-- Rule 3 of `evaluate_alerts`: predicted Stage 4 (projected severity
≥ 3.5 fourteen days ahead). -/
def stage4Alert (scans : List Scan) : Option Alert :=
  match projectSeverity scans 14 with
  | some projected =>
    if (7 : ℚ)/2 ≤ projected then
      some ⟨AlertType.stage_4_predicted, AlertSeverity.critical⟩
    else none
  | none => none

/-- Embeds `evaluate_alerts` for an existing wound, given its scans ordered by
`created_at` (the source's DB query ordering).  The wound lookup, the
`db.add`/`db.commit` persistence and logging are the caller-side plumbing
the spec rules out of scope; the returned list is the source's
`new_alerts`, in rule order. -/
def evaluateAlerts (scans : List Scan) : List Alert :=
  if scans.isEmpty then []
  else
    (severitySpikeAlert scans).toList ++ (stalledWoundAlert scans).toList ++
      (stage4Alert scans).toList

/-! ## General lemmas -/

instance {ε α : Type} [DecidableEq ε] [DecidableEq α] : DecidableEq (Except ε α) :=
  fun a b =>
    match a, b with
    | Except.ok x, Except.ok y =>
      if h : x = y then isTrue (by rw [h]) else isFalse (by simp [h])
    | Except.error x, Except.error y =>
      if h : x = y then isTrue (by rw [h]) else isFalse (by simp [h])
    | Except.ok _, Except.error _ => isFalse (by simp)
    | Except.error _, Except.ok _ => isFalse (by simp)

/-- Half-even rounding is monotone. -/
theorem roundHalfEven_mono {x y : ℚ} (hxy : x ≤ y) : roundHalfEven x ≤ roundHalfEven y := by
  have hf : ⌊x⌋ ≤ ⌊y⌋ := Int.floor_mono hxy
  unfold roundHalfEven
  rcases lt_or_eq_of_le hf with hlt | heq
  · split_ifs <;> omega
  · have heqq : ((⌊x⌋ : ℤ) : ℚ) = ((⌊y⌋ : ℤ) : ℚ) := by exact_mod_cast heq
    split_ifs <;> first | omega | (exfalso; linarith)

/-- Python rounding to `n` decimals is monotone. -/
theorem pyRound_mono (n : ℕ) {x y : ℚ} (h : x ≤ y) : pyRound n x ≤ pyRound n y := by
  unfold pyRound
  have h10 : (0 : ℚ) < 10 ^ n := by positivity
  refine (div_le_div_iff_of_pos_right h10).mpr ?_
  exact_mod_cast roundHalfEven_mono (mul_le_mul_of_nonneg_right h h10.le)

/-- On a non-empty history `calculate_healing_trend` returns normally. -/
theorem calculateHealingTrend_ok_of_ne_nil (wid : String) (h : List Measurement) (now : ℤ)
    (hne : h ≠ []) : ∃ t, calculateHealingTrend wid h now = Except.ok t := by
  cases h with
  | nil => exact absurd rfl hne
  | cons m rest => exact ⟨_, rfl⟩

/-! ## Claim theorems -/

/-- C7: `compute_trend` fails (with the `EmptyHistory` error
`"No scan history available"`) exactly when the measurement sequence is
empty, and on every non-empty sequence it succeeds with a `HealingTrend`. -/
theorem trend_empty_history_iff (wid : String) (h : List Measurement) (now : ℤ) :
    (calculateHealingTrend wid h now = Except.error "No scan history available" ↔ h = []) ∧
    (h ≠ [] → ∃ t, calculateHealingTrend wid h now = Except.ok t) := by
  constructor
  · cases h with
    | nil => simp [calculateHealingTrend]
    | cons m rest => simp [calculateHealingTrend]
  · exact calculateHealingTrend_ok_of_ne_nil wid h now

/-- Witness for C7 at the empty history and at a one-scan history. -/
theorem trend_empty_history_witness :
    (calculateHealingTrend "w" ([] : List Measurement) 0 =
      Except.error "No scan history available") ∧
    (∃ t, calculateHealingTrend "w" [⟨some 10, some 0⟩] 0 = Except.ok t) :=
  ⟨(trend_empty_history_iff "w" [] 0).1.mpr rfl,
   (trend_empty_history_iff "w" [⟨some 10, some 0⟩] 0).2 (by simp)⟩

/-- C10: `recommend` only ever returns urgency `"routine"` or `"urgent"`;
the declared `"emergency"` level is unreachable. -/
theorem recommend_urgency_never_emergency (g s e : ℚ) (ex et : String) (st : Bool)
    (r : String) :
    (recommend g s e ex et st r).urgency = "routine" ∨
      (recommend g s e ex et st r).urgency = "urgent" := by
  unfold recommend
  dsimp only
  split_ifs <;> simp

/-- C8: with `is_stalled = true`, `recommend` appends the
biopsy-consideration and advanced-therapy-review interventions and returns
urgency `"urgent"`, for every tissue composition, exudate level, etiology
and sub-epidermal risk. -/
theorem recommend_stalled_urgent (g s e : ℚ) (ex et r : String) :
    (recommend g s e ex et true r).urgency = "urgent" ∧
    "Wound not progressing - consider biopsy to rule out malignancy" ∈
      (recommend g s e ex et true r).interventions ∧
    "Review treatment plan and consider advanced therapy (NPWT or biologics)" ∈
      (recommend g s e ex et true r).interventions := by
  unfold recommend
  dsimp only
  refine ⟨?_, ?_, ?_⟩
  · split_ifs <;> first | rfl | simp_all
  · split_ifs <;> simp_all
  · split_ifs <;> simp_all

/-- C5 counterexample: PAR is not strictly decreasing in `current_area` for
a fixed positive baseline — at baseline 1000 the current areas 8 and 8.1
round to the same PAR of 99.2 %. -/
theorem par_rounding_counterexample :
    (8 : ℚ) < 81/10 ∧ calculatePar 1000 (81/10) = calculatePar 1000 8 := by
  constructor
  · norm_num
  · with_unfolding_all rfl

/-- C5 (amended): for a fixed positive baseline, the pre-rounding PAR value
is strictly decreasing in `current_area`, and the returned (1-decimal
rounded) PAR is weakly decreasing. -/
theorem par_antitone (b a a' : ℚ) (hb : 0 < b) (haa : a < a') :
    ((b - a') / b) * 100 < ((b - a) / b) * 100 ∧
      calculatePar b a' ≤ calculatePar b a := by
  have hlt : ((b - a') / b) * 100 < ((b - a) / b) * 100 := by
    have : (b - a') / b < (b - a) / b := by
      apply div_lt_div_of_pos_right ?_ hb
      linarith
    linarith
  refine ⟨hlt, ?_⟩
  unfold calculatePar
  rw [if_neg (not_le.mpr hb), if_neg (not_le.mpr hb)]
  exact pyRound_mono 1 hlt.le

/-- Witness for C5's amended monotonicity at baseline 10, areas 8 < 9. -/
theorem par_antitone_witness :
    (((10 : ℚ) - 9) / 10) * 100 < (((10 : ℚ) - 8) / 10) * 100 ∧
      calculatePar 10 9 ≤ calculatePar 10 8 :=
  ⟨(par_antitone 10 8 9 (by norm_num) (by norm_num)).1,
   (par_antitone 10 8 9 (by norm_num) (by norm_num)).2⟩

/-! ## C9: the confidence interval is constant -/

/-- C9: whenever `predict_deterioration` succeeds, the returned
`confidence_interval_pct` equals exactly 20.0: the computation always uses
exactly the most recent 5 readings, so `max(5, 30 − 2·window)` is
constant. -/
theorem predict_confidence_constant (wid : String) (h : List Measurement) (now : ℤ)
    (p : DeteriorationPrediction) (hp : predictDeterioration wid h now = Except.ok p) :
    p.confidence_interval_pct = 20 := by
  unfold predictDeterioration at hp
  by_cases h5 : h.length < 5
  · rw [if_pos h5] at hp
    exact absurd hp (by simp)
  · rw [if_neg h5] at hp
    dsimp only at hp
    split at hp
    · exact absurd hp (by simp)
    · have hlen : ((sortScans now h).drop ((sortScans now h).length - 5)).length = 5 := by
        have hperm : (sortScans now h).length = h.length :=
          (List.perm_insertionSort _ h).length_eq
        rw [List.length_drop, hperm]
        omega
      split at hp
      · exact absurd hp (by simp)
      next trend heq =>
        split at hp
        next tLast tFirst hL hF =>
          rw [Except.ok.injEq] at hp
          subst hp
          dsimp only
          rw [hlen]
          with_unfolding_all rfl
        next hne => exact absurd hp (by simp)

/-! ## C6: purity / wall-clock dependence of `compute_trend` -/

/-- A measurement that carries a timestamp reads the same under any wall
clock. -/
theorem mTime_congr {m : Measurement} (hm : m.created_at.isSome) (n1 n2 : ℤ) :
    mTime n1 m = mTime n2 m := by
  cases hc : m.created_at with
  | none => rw [hc] at hm; simp at hm
  | some t => simp [mTime, hc]

theorem headD_mem {α : Type} (l : List α) (d : α) (h : l ≠ []) : l.headD d ∈ l := by
  cases l with
  | nil => exact absurd rfl h
  | cons a t => simp

theorem getLastD_mem {α : Type} (l : List α) (d : α) (h : l ≠ []) : l.getLastD d ∈ l := by
  induction l generalizing d with
  | nil => exact absurd rfl h
  | cons a t ih =>
    rw [List.getLastD_cons]
    cases t with
    | nil => simp
    | cons b u => exact List.mem_cons_of_mem a (ih a (by simp))

/-- The healing-days projection does not depend on the wall clock when every
measurement carries a timestamp. -/
theorem projectHealingDays_congr (h : List Measurement) (c : ℚ) (n1 n2 : ℤ)
    (ht : ∀ m ∈ h, m.created_at.isSome) :
    projectHealingDays n1 h c = projectHealingDays n2 h c := by
  unfold projectHealingDays
  dsimp only
  have hmap : (h.drop (h.length - 2)).map (mTime n1) = (h.drop (h.length - 2)).map (mTime n2) :=
    List.map_congr_left fun m hm =>
      mTime_congr (ht m (List.drop_subset _ _ hm)) n1 n2
  rw [hmap]

/-- C6 (amended): `compute_trend` is deterministic — independent of the wall
clock — on every input in which every measurement carries a timestamp
(and `recommend` takes no clock at all); with absent timestamps the source
substitutes `utcnow()`. -/
theorem trend_deterministic_of_timestamps (wid : String) (h : List Measurement) (n1 n2 : ℤ)
    (ht : ∀ m ∈ h, m.created_at.isSome) :
    calculateHealingTrend wid h n1 = calculateHealingTrend wid h n2 := by
  cases h with
  | nil => rfl
  | cons m rest =>
    unfold calculateHealingTrend
    dsimp only
    rw [mTime_congr (ht _ (headD_mem (m :: rest) m (by simp))) n1 n2,
      mTime_congr (ht _ (getLastD_mem (m :: rest) m (by simp))) n1 n2,
      projectHealingDays_congr (m :: rest) _ n1 n2 ht]

/-- The history used by the C6 counterexample: the baseline scan lacks a
timestamp, the current scan is at Unix time 0. -/
def msC6 : List Measurement := [⟨some 10, none⟩, ⟨some 10, some 0⟩]

/-- C6 counterexample: with a missing baseline timestamp, `compute_trend`
evaluated at wall-clock 0 and at wall-clock 2 592 000 (30 days later)
returns different results (`days_elapsed` 0 versus −30): the output depends
on the wall clock. -/
theorem trend_wall_clock_counterexample :
    calculateHealingTrend "w" msC6 0 ≠ calculateHealingTrend "w" msC6 2592000 :=
  of_decide_eq_true (by with_unfolding_all rfl)

/-- Witness for C6's amended determinism on a fully timestamped history. -/
theorem trend_deterministic_witness :
    calculateHealingTrend "w" [⟨some 10, some 0⟩, ⟨some 9, some 86400⟩] 5 =
      calculateHealingTrend "w" [⟨some 10, some 0⟩, ⟨some 9, some 86400⟩] 999999 :=
  trend_deterministic_of_timestamps "w" _ 5 999999 (by decide)

/-! ## C1: missing `area_cm2` is treated as zero, not skipped -/

/-- Replace an absent area by an explicit `0`, the value the source's
`s.get("area_cm2", 0)` substitutes. -/
def fillArea (m : Measurement) : Measurement := ⟨some (mArea m), m.created_at⟩

theorem mArea_fillArea (m : Measurement) : mArea (fillArea m) = mArea m := rfl

theorem mTime_fillArea (n : ℤ) (m : Measurement) : mTime n (fillArea m) = mTime n m := rfl

theorem headD_map {α β : Type} (f : α → β) (l : List α) (d : α) :
    (l.map f).headD (f d) = f (l.headD d) := by
  cases l <;> simp

theorem getLastD_map {α β : Type} (f : α → β) (l : List α) (d : α) :
    (l.map f).getLastD (f d) = f (l.getLastD d) := by
  induction l generalizing d with
  | nil => rfl
  | cons a t ih => rw [List.map_cons, List.getLastD_cons, List.getLastD_cons, ih]

theorem mapFill_drop_areas (h : List Measurement) (k : ℕ) :
    ((h.map fillArea).drop k).map mArea = (h.drop k).map mArea := by
  rw [← List.map_drop, List.map_map]
  exact List.map_congr_left fun m _ => mArea_fillArea m

theorem mapFill_drop_times (n : ℤ) (h : List Measurement) (k : ℕ) :
    ((h.map fillArea).drop k).map (mTime n) = (h.drop k).map (mTime n) := by
  rw [← List.map_drop, List.map_map]
  exact List.map_congr_left fun m _ => mTime_fillArea n m

theorem getTrendDirection_fill (h : List Measurement) :
    getTrendDirection (h.map fillArea) = getTrendDirection h := by
  unfold getTrendDirection
  dsimp only
  rw [List.length_map, mapFill_drop_areas]

theorem projectHealingDays_fill (n : ℤ) (h : List Measurement) (c : ℚ) :
    projectHealingDays n (h.map fillArea) c = projectHealingDays n h c := by
  unfold projectHealingDays
  dsimp only
  rw [List.length_map, mapFill_drop_areas, mapFill_drop_times]

/-- C1 (amended): the trend formulas (PAR, trend direction, projection) of
`compute_trend` treat a missing `area_cm2` exactly as the value `0`: the
trend of any history equals the trend of the history with every absent area
replaced by an explicit `0`.  Scans lacking the field are not skipped. -/
theorem trend_missing_area_as_zero (wid : String) (h : List Measurement) (now : ℤ) :
    calculateHealingTrend wid (h.map fillArea) now = calculateHealingTrend wid h now := by
  cases h with
  | nil => rfl
  | cons m rest =>
    show calculateHealingTrend wid (fillArea m :: rest.map fillArea) now = _
    unfold calculateHealingTrend
    dsimp only
    rw [show (fillArea m :: rest.map fillArea) = (m :: rest).map fillArea from rfl,
      getLastD_map fillArea, headD_map fillArea, getTrendDirection_fill,
      projectHealingDays_fill, mArea_fillArea, mArea_fillArea, mTime_fillArea, mTime_fillArea]

/-- The history used by the C1 counterexample: baseline area 10, second scan
one day later with no recorded area. -/
def msC1 : List Measurement := [⟨some 10, some 0⟩, ⟨none, some 86400⟩]

/-- C1 counterexample: on a history whose last scan lacks `area_cm2`,
`compute_trend` reports `current_area_cm2 = 0` and `PAR = 100 %` — the
absent area was substituted by zero (a skipped scan would leave the
baseline as current, PAR 0) — and the result coincides with the explicit
`area_cm2 = 0` history. -/
theorem trend_missing_area_counterexample :
    (calculateHealingTrend "w" msC1 0).map
        (fun t => (t.par_percentage, t.current_area_cm2)) = Except.ok (100, 0) ∧
      calculateHealingTrend "w" msC1 0 =
        calculateHealingTrend "w" [⟨some 10, some 0⟩, ⟨some 0, some 86400⟩] 0 := by
  constructor
  · with_unfolding_all rfl
  · with_unfolding_all rfl

/-- A 5-scan daily history on which `predict_deterioration` succeeds. -/
def msOK : List Measurement :=
  [⟨some 10, some 0⟩, ⟨some 9, some 86400⟩, ⟨some 8, some 172800⟩,
   ⟨some 7, some 259200⟩, ⟨some 6, some 345600⟩]

/-- The prediction returned on `msOK`. -/
def pOK : DeteriorationPrediction :=
  { wound_id := "w", risk_probability := 1/10, confidence_interval_pct := 20 }

/-- Witness for C9: a concrete successful prediction whose confidence
interval is 20.0. -/
theorem predict_confidence_constant_witness :
    predictDeterioration "w" msOK 0 = Except.ok pOK ∧ pOK.confidence_interval_pct = 20 :=
  ⟨by with_unfolding_all rfl,
   predict_confidence_constant "w" msOK 0 pOK (by with_unfolding_all rfl)⟩

/-! ## C2: the insufficient-history precondition -/

/-- C2 (amended): for a chronologically ordered, fully timestamped history,
`predict_deterioration` succeeds exactly when there are at least 5
measurements and the floored whole-day difference between the first and the
last timestamp is at least 4 (96 whole hours); otherwise it fails with one
of the two `InsufficientHistory` errors.  The source's check is
`(end − start).days < 4`, not a count of calendar days touched. -/
theorem predict_insufficient_history_iff (wid : String) (h : List Measurement) (now : ℤ)
    (hs : List.Sorted (fun a b => mTime now a ≤ mTime now b) h)
    (ht : ∀ m ∈ h, m.created_at.isSome) :
    (∃ p, predictDeterioration wid h now = Except.ok p) ↔
      5 ≤ h.length ∧
        4 ≤ daysBetween (mTime now (h.headD default)) (mTime now (h.getLastD default)) := by
  unfold predictDeterioration sortScans
  rw [List.Sorted.insertionSort_eq hs]
  by_cases h5 : h.length < 5
  · rw [if_pos h5]
    constructor
    · rintro ⟨p, hp⟩
      exact absurd hp (by simp)
    · intro hc
      omega
  · rw [if_neg h5]
    dsimp only
    by_cases h4 :
      daysBetween (mTime now (h.headD default)) (mTime now (h.getLastD default)) < 4
    · rw [if_pos h4]
      constructor
      · rintro ⟨p, hp⟩
        exact absurd hp (by simp)
      · intro hc
        omega
    · rw [if_neg h4]
      have hlen5 : 5 ≤ h.length := by omega
      have hrlen : (h.drop (h.length - 5)).length = 5 := by
        rw [List.length_drop]; omega
      have hrne : h.drop (h.length - 5) ≠ [] :=
        List.ne_nil_of_length_pos (by omega)
      obtain ⟨t, htr⟩ := calculateHealingTrend_ok_of_ne_nil wid (h.drop (h.length - 5)) now hrne
      rw [htr]
      dsimp only
      obtain ⟨tL, hL⟩ := Option.isSome_iff_exists.mp
        (ht _ (List.drop_subset _ _ (getLastD_mem _ default hrne)))
      obtain ⟨tF, hF⟩ := Option.isSome_iff_exists.mp
        (ht _ (List.drop_subset _ _ (headD_mem _ default hrne)))
      rw [hL, hF]
      dsimp only
      constructor
      · intro _
        exact ⟨hlen5, by omega⟩
      · intro _
        exact ⟨_, rfl⟩

/-- Witness for C2's amended equivalence: `msOK` (5 daily scans, 4 whole
days of span) is accepted. -/
theorem predict_insufficient_history_witness :
    ∃ p, predictDeterioration "w" msOK 0 = Except.ok p :=
  (predict_insufficient_history_iff "w" msOK 0 (by decide) (by decide)).mpr (by decide)

/-- Modelled from the spec: the spec's "measurements spanning ≥ 5 calendar
days" counts calendar days touched; written from the spec's words for
comparison with the source's `(end − start).days` check, as the size of the
range of calendar-day indices of the timestamps. -/
def calendarDaysSpanned (now : ℤ) (h : List Measurement) : ℤ :=
  let ds := h.map (fun m => (mTime now m).fdiv 86400)
  ds.foldl max (ds.headD 0) - ds.foldl min (ds.headD 0) + 1

/-- The C2 counterexample history: 5 timestamped scans touching the 5
calendar days 0–4 (first scan at 23:00 of day 0, last at 01:00 of day 4),
whose end-to-start difference is only 3.08 whole days. -/
def msC2 : List Measurement :=
  [⟨some 10, some 82800⟩, ⟨some 10, some 100000⟩, ⟨some 10, some 200000⟩,
   ⟨some 10, some 300000⟩, ⟨some 10, some 349200⟩]

/-- C2 counterexample: `msC2` has 5 timestamped measurements spanning 5
calendar days, yet `predict_deterioration` rejects it with the
`InsufficientHistory` error, because the source tests
`(end − start).days < 4` (floored 86400-second days), not calendar days. -/
theorem predict_calendar_span_counterexample :
    msC2.length = 5 ∧ (∀ m ∈ msC2, m.created_at.isSome) ∧
      calendarDaysSpanned 0 msC2 = 5 ∧
      predictDeterioration "w" msC2 0 =
        Except.error "Scans must cover at least five consecutive days" :=
  ⟨rfl, by decide, by decide, by with_unfolding_all rfl⟩

/-! ## C3: the severity-spike rule -/

/-- The latest scored scan (the source's `recent_scored[-1]`). -/
def lastScored (scans : List Scan) : Scan := (scansScored scans).getLastD default

/-- The most recent scored scan before the latest (`recent_scored[-2]`). -/
def prevScored (scans : List Scan) : Scan :=
  (scansScored scans).dropLast.getLastD default

theorem getLast?_eq_some_getLastD {α : Type} (l : List α) (d : α) (h : l ≠ []) :
    l.getLast? = some (l.getLastD d) := by
  cases hl : l.getLast? with
  | none => exact absurd (List.getLast?_eq_none_iff.mp hl) h
  | some x =>
    rw [List.getLastD_eq_getLast?, hl]
    simp

/-- In a list sorted by timestamp, filtering by an upward-closed predicate
(one preserved by moving to later timestamps) keeps a suffix, so the last
survivor is the last element — if it qualifies at all. -/
theorem filter_getLast?_of_sorted (q : Scan → Bool) {l : List Scan}
    (hs : List.Sorted (fun a b : Scan => a.created_at ≤ b.created_at) l)
    (hmono : ∀ a b : Scan, a.created_at ≤ b.created_at → q a = true → q b = true) :
    (l.filter q).getLast? = l.getLast?.bind (fun x => if q x then some x else none) := by
  rcases List.eq_nil_or_concat l with rfl | ⟨l', x, rfl⟩
  · rfl
  · simp only [List.concat_eq_append] at hs ⊢
    have hall : ∀ a ∈ l', a.created_at ≤ x.created_at := fun a ha =>
      (List.pairwise_append.mp hs).2.2 a ha x (by simp)
    rw [List.filter_append, List.getLast?_concat, Option.some_bind]
    by_cases hq : q x = true
    · have hx : List.filter q [x] = [x] := by simp [hq]
      rw [hx, List.getLast?_concat, if_pos hq]
    · have hx : List.filter q [x] = [] := by simp [hq]
      have hfl : l'.filter q = [] := by
        rw [List.filter_eq_nil_iff]
        intro a ha hqa
        exact hq (hmono a x (hall a ha) hqa)
      rw [hx, hfl, if_neg hq]
      rfl

theorem severitySpikeAlert_shape {scans : List Scan} {a : Alert}
    (h : severitySpikeAlert scans = some a) :
    a = ⟨AlertType.severity_spike, AlertSeverity.high⟩ := by
  unfold severitySpikeAlert at h
  dsimp only at h
  split at h
  · split at h
    · exact absurd h (by simp)
    · split at h
      · injection h with h1
        exact h1.symm
      · exact absurd h (by simp)
  · exact absurd h (by simp)

theorem stalledWoundAlert_shape {scans : List Scan} {a : Alert}
    (h : stalledWoundAlert scans = some a) :
    a = ⟨AlertType.stalled_wound, AlertSeverity.medium⟩ := by
  unfold stalledWoundAlert at h
  dsimp only at h
  split at h
  · split at h
    · split at h
      · injection h with h1
        exact h1.symm
      · exact absurd h (by simp)
    · exact absurd h (by simp)
  · exact absurd h (by simp)

theorem stage4Alert_shape {scans : List Scan} {a : Alert}
    (h : stage4Alert scans = some a) :
    a = ⟨AlertType.stage_4_predicted, AlertSeverity.critical⟩ := by
  unfold stage4Alert at h
  split at h
  · split at h
    · injection h with h1
      exact h1.symm
    · exact absurd h (by simp)
  · exact absurd h (by simp)

/-- Membership of a rule's alert in the evaluator output reduces to that
rule's own option, because the three rules emit alerts of three distinct
types. -/
theorem mem_evaluateAlerts_iff (scans : List Scan) (a : Alert) :
    a ∈ evaluateAlerts scans ↔
      (severitySpikeAlert scans = some a ∨ stalledWoundAlert scans = some a ∨
        stage4Alert scans = some a) := by
  unfold evaluateAlerts
  by_cases hemp : scans.isEmpty
  · rw [if_pos hemp]
    rw [List.isEmpty_iff] at hemp
    subst hemp
    simp only [List.not_mem_nil, false_iff]
    have e1 : severitySpikeAlert [] = none := by decide
    have e2 : stalledWoundAlert [] = none := by decide
    have e3 : stage4Alert [] = none := by decide
    rintro (hc | hc | hc) <;> simp_all
  · rw [if_neg hemp]
    simp only [List.mem_append, Option.mem_toList, Option.mem_def, or_assoc]

/-- C3: the severity-spike rule fires — emitting a `severity_spike`/`high`
alert — exactly when there are at least two scored scans, the most recent
prior scored scan lies within the inclusive 24-hour look-back window of the
latest scan's timestamp, and the latest score exceeds that prior score by
strictly more than 0.5 (so a delta of exactly 0.5 does not fire). -/
theorem severity_spike_iff (scans : List Scan)
    (hs : List.Sorted (fun a b : Scan => a.created_at ≤ b.created_at) scans) :
    ((⟨AlertType.severity_spike, AlertSeverity.high⟩ : Alert) ∈ evaluateAlerts scans ↔
      2 ≤ (scansScored scans).length ∧
        (lastScored scans).created_at - (prevScored scans).created_at ≤ 86400 ∧
        (lastScored scans).severity_score.getD 0 -
          (prevScored scans).severity_score.getD 0 > 1/2) := by
  rw [mem_evaluateAlerts_iff]
  have hnot2 : ¬ stalledWoundAlert scans =
      some ⟨AlertType.severity_spike, AlertSeverity.high⟩ := fun hc => by
    have := stalledWoundAlert_shape hc
    simp at this
  have hnot3 : ¬ stage4Alert scans =
      some ⟨AlertType.severity_spike, AlertSeverity.high⟩ := fun hc => by
    have := stage4Alert_shape hc
    simp at this
  rw [show (severitySpikeAlert scans =
        some ⟨AlertType.severity_spike, AlertSeverity.high⟩ ∨
        stalledWoundAlert scans = some ⟨AlertType.severity_spike, AlertSeverity.high⟩ ∨
        stage4Alert scans = some ⟨AlertType.severity_spike, AlertSeverity.high⟩) ↔
      severitySpikeAlert scans = some ⟨AlertType.severity_spike, AlertSeverity.high⟩ from
    by tauto]
  unfold severitySpikeAlert lastScored prevScored
  dsimp only
  by_cases h2 : 2 ≤ (scansScored scans).length
  · rw [if_pos h2]
    have hsF : List.Sorted (fun a b : Scan => a.created_at ≤ b.created_at)
        (scansScored scans) := hs.filter _
    have hsP : List.Sorted (fun a b : Scan => a.created_at ≤ b.created_at)
        (scansScored scans).dropLast :=
      List.Pairwise.sublist (List.dropLast_sublist _) hsF
    have hPne : (scansScored scans).dropLast ≠ [] := by
      apply List.ne_nil_of_length_pos
      rw [List.length_dropLast]
      omega
    rw [filter_getLast?_of_sorted _ hsP
        (fun a b hab hqa => decide_eq_true (by have := of_decide_eq_true hqa; omega)),
      getLast?_eq_some_getLastD _ default hPne, Option.some_bind]
    by_cases hq : ((scansScored scans).getLastD default).created_at -
        ((scansScored scans).dropLast.getLastD default).created_at ≤ 86400
    · rw [if_pos (decide_eq_true hq)]
      dsimp only
      by_cases hd : ((scansScored scans).getLastD default).severity_score.getD 0 -
          ((scansScored scans).dropLast.getLastD default).severity_score.getD 0 > 1/2
      · rw [if_pos hd]
        constructor
        · intro _
          exact ⟨h2, hq, hd⟩
        · intro _
          rfl
      · rw [if_neg hd]
        constructor
        · intro hc
          exact absurd hc (by simp)
        · rintro ⟨_, _, hc⟩
          exact absurd hc hd
    · rw [if_neg (by simpa using hq)]
      dsimp only
      constructor
      · intro hc
        exact absurd hc (by simp)
      · rintro ⟨_, hc, _⟩
        exact absurd hc hq
  · rw [if_neg h2]
    constructor
    · intro hc
      exact absurd hc (by simp)
    · rintro ⟨hc, _, _⟩
      exact absurd hc h2

/-- The sorted two-scan history used in the C3 witness: scores 1.0 then 2.0
one hour apart. -/
def scansC3 : List Scan := [⟨0, some 1, none⟩, ⟨3600, some 2, none⟩]

/-- Witness for C3 at a concrete sorted history where the rule fires. -/
theorem severity_spike_iff_witness :
    (⟨AlertType.severity_spike, AlertSeverity.high⟩ : Alert) ∈ evaluateAlerts scansC3 :=
  (severity_spike_iff scansC3 (by decide)).mpr
    (of_decide_eq_true (by with_unfolding_all rfl))

/-! ## C4: the predicted-severe-stage rule -/

/-- C4: the evaluator emits a `predicted_severe_stage`/`critical` alert
exactly when the least-squares severity projection 14 days past the last
scored scan exists and is at least 3.5; with fewer than 2 scored scans the
projection is `none` (no fit), so no alert and no propagated error. -/
theorem stage4_prediction_rule (scans : List Scan) :
    (((⟨AlertType.stage_4_predicted, AlertSeverity.critical⟩ : Alert) ∈
        evaluateAlerts scans) ↔
      ∃ v, projectSeverity scans 14 = some v ∧ (7 : ℚ)/2 ≤ v) ∧
    ((scansScored scans).length < 2 → projectSeverity scans 14 = none) := by
  constructor
  · rw [mem_evaluateAlerts_iff]
    have hnot1 : ¬ severitySpikeAlert scans =
        some ⟨AlertType.stage_4_predicted, AlertSeverity.critical⟩ := fun hc => by
      have := severitySpikeAlert_shape hc
      simp at this
    have hnot2 : ¬ stalledWoundAlert scans =
        some ⟨AlertType.stage_4_predicted, AlertSeverity.critical⟩ := fun hc => by
      have := stalledWoundAlert_shape hc
      simp at this
    rw [show (severitySpikeAlert scans =
          some ⟨AlertType.stage_4_predicted, AlertSeverity.critical⟩ ∨
          stalledWoundAlert scans =
            some ⟨AlertType.stage_4_predicted, AlertSeverity.critical⟩ ∨
          stage4Alert scans =
            some ⟨AlertType.stage_4_predicted, AlertSeverity.critical⟩) ↔
        stage4Alert scans =
          some ⟨AlertType.stage_4_predicted, AlertSeverity.critical⟩ from by tauto]
    unfold stage4Alert
    cases hpr : projectSeverity scans 14 with
    | none =>
      dsimp only
      constructor
      · intro hc
        exact absurd hc (by simp)
      · rintro ⟨v, hv, _⟩
        exact absurd hv (by simp)
    | some v =>
      dsimp only
      by_cases hge : (7 : ℚ)/2 ≤ v
      · rw [if_pos hge]
        constructor
        · intro _
          exact ⟨v, rfl, hge⟩
        · intro _
          rfl
      · rw [if_neg hge]
        constructor
        · intro hc
          exact absurd hc (by simp)
        · rintro ⟨v2, hv2, hge2⟩
          injection hv2 with hv2
          exact absurd (hv2 ▸ hge2) hge
  · intro hlt
    unfold projectSeverity
    dsimp only
    rw [if_pos (by rw [List.length_map]; exact hlt)]

/-- Witness for C4's no-fit branch: one unscored scan yields no
projection. -/
theorem stage4_prediction_rule_witness :
    projectSeverity [(⟨0, none, some 10⟩ : Scan)] 14 = none :=
  (stage4_prediction_rule [⟨0, none, some 10⟩]).2 (by decide)

end NoPressure
